import Mathlib

/-!
Verification development for the terminal store's exec server
(pkg/execserver.go and the browser client ui/src/components/Terminal.vue).

The Go handlers are embedded as pure Lean functions over an explicit server
state.  Go maps become association lists with map semantics (lookup, replace
insert, erase); the OS/environment outcomes that the handlers branch on
(success of a pipe write, success of pipe creation and process start, the
order in which the select loop receives channel messages) become explicit
parameters, so every handler is a deterministic function of state, request
and environment outcome.
-/

/-- Lookup in a Go-style map embedded as an association list. -/
def mapLookup {α β : Type} [DecidableEq α] : List (α × β) → α → Option β
  | [], _ => none
  | (k, v) :: rest, k' => if k = k' then some v else mapLookup rest k'

/-- Insertion in a Go-style map: replaces the value when the key is present,
otherwise appends the new pair. -/
def mapInsert {α β : Type} [DecidableEq α] : List (α × β) → α → β → List (α × β)
  | [], k, v => [(k, v)]
  | (k', v') :: rest, k, v =>
      if k' = k then (k, v) :: rest else (k', v') :: mapInsert rest k v

/-- Deletion in a Go-style map: removes every pair with the given key. -/
def mapErase {α β : Type} [DecidableEq α] : List (α × β) → α → List (α × β)
  | [], _ => []
  | (k', v') :: rest, k =>
      if k' = k then mapErase rest k else (k', v') :: mapErase rest k

theorem mapLookup_mapErase_self {α β : Type} [DecidableEq α]
    (m : List (α × β)) (k : α) : mapLookup (mapErase m k) k = none := by
  induction m with
  | nil => rfl
  | cons p rest ih =>
      obtain ⟨k', v'⟩ := p
      by_cases h : k' = k
      · simp [mapErase, h, ih]
      · simp [mapErase, mapLookup, h, ih]

theorem mapLookup_mapErase_ne {α β : Type} [DecidableEq α]
    (m : List (α × β)) (k k' : α) (h : k ≠ k') :
    mapLookup (mapErase m k) k' = mapLookup m k' := by
  induction m with
  | nil => rfl
  | cons p rest ih =>
      obtain ⟨a, b⟩ := p
      by_cases ha : a = k
      · subst ha
        simp [mapErase, mapLookup, h, ih]
      · simp only [mapErase, mapLookup, if_neg ha]
        by_cases hb : a = k'
        · simp [mapLookup, hb]
        · simp [mapLookup, hb, ih]

theorem mapLookup_mapInsert_self {α β : Type} [DecidableEq α]
    (m : List (α × β)) (k : α) (v : β) :
    mapLookup (mapInsert m k v) k = some v := by
  induction m with
  | nil => simp [mapInsert, mapLookup]
  | cons p rest ih =>
      obtain ⟨a, b⟩ := p
      by_cases ha : a = k
      · simp [mapInsert, ha, mapLookup]
      · simp [mapInsert, mapLookup, ha, ih]

theorem mapLookup_mapInsert_ne {α β : Type} [DecidableEq α]
    (m : List (α × β)) (k k' : α) (v : β) (h : k ≠ k') :
    mapLookup (mapInsert m k v) k' = mapLookup m k' := by
  induction m with
  | nil => simp [mapInsert, mapLookup, h]
  | cons p rest ih =>
      obtain ⟨a, b⟩ := p
      by_cases ha : a = k
      · subst ha
        simp [mapInsert, mapLookup, h]
      · simp [mapInsert, mapLookup, ha, ih]

/-- Keys of an association-list map. -/
def mapKeys {α β : Type} (m : List (α × β)) : List α := m.map Prod.fst

/-- Go-map well-formedness: each key occurs at most once. -/
def keysNodup {α β : Type} (m : List (α × β)) : Prop := (mapKeys m).Nodup

theorem mem_mapKeys_cons {α β : Type} (p : α × β) (m : List (α × β)) (a : α) :
    a ∈ mapKeys (p :: m) ↔ a = p.1 ∨ a ∈ mapKeys m := by
  simp [mapKeys]

theorem keysNodup_cons {α β : Type} (p : α × β) (m : List (α × β)) :
    keysNodup (p :: m) ↔ p.1 ∉ mapKeys m ∧ keysNodup m := by
  simp [keysNodup, mapKeys, List.nodup_cons]

theorem mapKeys_mapErase_subset {α β : Type} [DecidableEq α]
    (m : List (α × β)) (k a : α) (h : a ∈ mapKeys (mapErase m k)) :
    a ∈ mapKeys m := by
  induction m with
  | nil => simpa [mapErase] using h
  | cons p rest ih =>
      obtain ⟨k', v'⟩ := p
      rw [mem_mapKeys_cons]
      by_cases hk : k' = k
      · simp only [mapErase, if_pos hk] at h
        exact Or.inr (ih h)
      · simp only [mapErase, if_neg hk] at h
        rw [mem_mapKeys_cons] at h
        rcases h with h | h
        · exact Or.inl h
        · exact Or.inr (ih h)

theorem keysNodup_mapErase {α β : Type} [DecidableEq α]
    (m : List (α × β)) (k : α) (h : keysNodup m) : keysNodup (mapErase m k) := by
  induction m with
  | nil => simpa [mapErase] using h
  | cons p rest ih =>
      obtain ⟨k', v'⟩ := p
      rw [keysNodup_cons] at h
      by_cases hk : k' = k
      · simp only [mapErase, if_pos hk]
        exact ih h.2
      · simp only [mapErase, if_neg hk]
        rw [keysNodup_cons]
        exact ⟨fun hc => h.1 (mapKeys_mapErase_subset rest k k' hc), ih h.2⟩

theorem mapKeys_mapInsert_subset {α β : Type} [DecidableEq α]
    (m : List (α × β)) (k a : α) (v : β) (h : a ∈ mapKeys (mapInsert m k v)) :
    a = k ∨ a ∈ mapKeys m := by
  induction m with
  | nil =>
      simp only [mapInsert] at h
      rw [mem_mapKeys_cons] at h
      rcases h with h | h
      · exact Or.inl h
      · exact absurd h (by simp [mapKeys])
  | cons p rest ih =>
      obtain ⟨k', v'⟩ := p
      by_cases hk : k' = k
      · simp only [mapInsert, if_pos hk] at h
        rw [mem_mapKeys_cons] at h
        rcases h with h | h
        · exact Or.inl h
        · exact Or.inr (by rw [mem_mapKeys_cons]; exact Or.inr h)
      · simp only [mapInsert, if_neg hk] at h
        rw [mem_mapKeys_cons] at h
        rcases h with h | h
        · exact Or.inr (by rw [mem_mapKeys_cons]; exact Or.inl h)
        · rcases ih h with h' | h'
          · exact Or.inl h'
          · exact Or.inr (by rw [mem_mapKeys_cons]; exact Or.inr h')

theorem keysNodup_mapInsert {α β : Type} [DecidableEq α]
    (m : List (α × β)) (k : α) (v : β) (h : keysNodup m) :
    keysNodup (mapInsert m k v) := by
  induction m with
  | nil => simp [keysNodup, mapInsert, mapKeys]
  | cons p rest ih =>
      obtain ⟨k', v'⟩ := p
      rw [keysNodup_cons] at h
      by_cases hk : k' = k
      · have he : mapInsert ((k', v') :: rest) k v = (k, v) :: rest := by
          simp [mapInsert, hk]
        rw [he, keysNodup_cons, ← hk]
        exact ⟨h.1, h.2⟩
      · simp only [mapInsert, if_neg hk]
        rw [keysNodup_cons]
        refine ⟨fun hc => ?_, ih h.2⟩
        rcases mapKeys_mapInsert_subset rest k k' v hc with h' | h'
        · exact hk h'
        · exact h.1 h'

/-- HTTP status codes the embedded handlers produce
(200, 400, 404, 405, 500). -/
inductive HttpStatus where
  | ok
  | badRequest
  | notFound
  | methodNotAllowed
  | internalError
deriving DecidableEq, Repr

/-- Terminal metadata carried in requests and cache entries
(execserver.go, type Terminal / execRequest). -/
structure execRequest where
  cmd : String
  terminalId : String
  terminalName : String
deriving DecidableEq, Repr

/-- Entry of cmdWriterCache (execserver.go, type TerminalCache).  The Writer,
Context and DoneChannel fields are embedded as identifiers of the stdin pipe,
the cancellable context and the done channel created by the spawn that
inserted the entry; ResponseWriter is not part of the persistent state
because every Go access to it mutates a local copy of the struct value. -/
structure TerminalCache where
  writerId : Nat
  ctxId : Nat
  doneChId : Nat
  terminalId : String
  terminalName : String
deriving DecidableEq, Repr

/-- Entry of processManager.processes (execserver.go, type ProcessInfo).
The embedded fields record the OS-determined outcome of a WriteString and of
a Flush on the process's buffered stdin writer (none means success). -/
structure ProcessInfo where
  writeErr : Option String
  flushErr : Option String
deriving DecidableEq, Repr

/-- State shared by the embedded handlers: the session registry
cmdWriterCache, the process registry processManager.processes, and the
observable effects on OS resources (writers closed, contexts whose cancel
function has been invoked, pids killed). -/
structure ServerState where
  cmdWriterCache : List (String × TerminalCache)
  processes : List (Nat × ProcessInfo)
  closedWriters : List Nat
  cancelledCtxs : List Nat
  killedPids : List Nat
deriving DecidableEq, Repr

/-- DELETE branch of the streaming endpoint (execserver.go lines 166-177).
On a known terminalId the code runs c.Writer.Close(), c.Context.Done() and
delete(cmdWriterCache, req.TerminalId).  In Go, Context.Done() is an
accessor that returns the context's done channel and has no side effect:
no context is cancelled and no process is killed here, so cancelledCtxs and
killedPids are untouched.  On an unknown terminalId nothing happens.  The
handler writes no response body, so the transport reports status 200. -/
def handleTerminalDelete (s : ServerState) (terminalId : String) :
    ServerState × HttpStatus :=
  match mapLookup s.cmdWriterCache terminalId with
  | some c =>
      ({ s with
          closedWriters := c.writerId :: s.closedWriters,
          cmdWriterCache := mapErase s.cmdWriterCache terminalId },
        HttpStatus.ok)
  | none => (s, HttpStatus.ok)

/-- StreamEvent: one server-sent frame of the streaming protocol
(execserver.go lines 284, 354, 362, 368, 378). -/
inductive StreamEvent where
  | start (pid : Nat)
  | stdout (line : String)
  | stderr (line : String)
  | endEv (exitCode : Int) (errMsg : String)
  | error (msg : String)
deriving DecidableEq, Repr

/-- Outcome of the spawn sequence (execserver.go lines 249-272): either one
of the pipe-creation or Start calls fails, or the process starts with an
OS-assigned pid; wid, cid and did identify the freshly created stdin pipe,
cancellable context and done channel. -/
inductive SpawnOutcome where
  | stdinPipeErr
  | stdoutPipeErr
  | stderrPipeErr
  | startErr
  | ok (pid wid cid did : Nat)
deriving DecidableEq, Repr

/-- Result of the setup phase of the streaming POST handler, up to and
including the cmdWriterCache insertion (execserver.go lines 220-304):
the state afterwards, whether http.Error was called, the pid of a newly
spawned process, the events already written to the transport, the write
attempts made on cached stdin writers, and the done channels that received
a value on the stale-session path. -/
structure SetupResult where
  state : ServerState
  httpError : Option HttpStatus
  spawned : Option Nat
  events : List StreamEvent
  writes : List (Nat × String)
  signalledDone : List Nat
deriving DecidableEq, Repr

/-- Spawn path of the streaming POST handler (execserver.go lines 234-304):
pipe creation and Start failures call http.Error and leave both registries
untouched; on success the process is registered in
processManager.processes under the mutex, the start event is written, and
a fresh TerminalCache entry bound to the new stdin pipe, context and done
channel is inserted under req.TerminalId. -/
def spawnPath (s : ServerState) (req : execRequest) (spawn : SpawnOutcome)
    (writes : List (Nat × String)) (sig : List Nat) : SetupResult :=
  match spawn with
  | SpawnOutcome.stdinPipeErr =>
      ⟨s, some HttpStatus.internalError, none, [], writes, sig⟩
  | SpawnOutcome.stdoutPipeErr =>
      ⟨s, some HttpStatus.internalError, none, [], writes, sig⟩
  | SpawnOutcome.stderrPipeErr =>
      ⟨s, some HttpStatus.internalError, none, [], writes, sig⟩
  | SpawnOutcome.startErr =>
      ⟨s, some HttpStatus.internalError, none, [], writes, sig⟩
  | SpawnOutcome.ok pid wid cid did =>
      ⟨{ s with
          processes := mapInsert s.processes pid ⟨none, none⟩,
          cmdWriterCache := mapInsert s.cmdWriterCache req.terminalId
            ⟨wid, cid, did, req.terminalId, req.terminalName⟩ },
        none, some pid, [StreamEvent.start pid], writes, sig⟩

/-- Setup phase of the streaming POST handler (execserver.go lines 220-304).
On a cache hit the command plus a newline is written to the cached stdin
writer: if the write succeeds the handler returns at once (the assignment
c.ResponseWriter = w mutates a local copy of the struct value, so the map
is unchanged); if it fails, go c.Context.Done() is a no-op (Done() merely
returns the done channel), true is sent on the stale session's DoneChannel,
the stale entry is deleted, and control falls through to the spawn path.
On a cache miss control goes directly to the spawn path. -/
def streamPostSetup (s : ServerState) (req : execRequest) (writeOk : Bool)
    (spawn : SpawnOutcome) : SetupResult :=
  match mapLookup s.cmdWriterCache req.terminalId with
  | some c =>
      if writeOk then
        ⟨s, none, none, [], [(c.writerId, req.cmd ++ "\n")], []⟩
      else
        spawnPath
          { s with cmdWriterCache := mapErase s.cmdWriterCache req.terminalId }
          req spawn [(c.writerId, req.cmd ++ "\n")] [c.doneChId]
  | none => spawnPath s req spawn [] []

/-- One delivery observed by the coordinating select loop (execserver.go
lines 350-387): a receive on stdoutCh or stderrCh (some line, or none when
the channel is closed and the receive yields ok = false), a receive on
doneCh, or the context's done channel firing. -/
inductive LoopEvent where
  | stdoutMsg (line : Option String)
  | stderrMsg (line : Option String)
  | done
  | cancelled
deriving DecidableEq, Repr

/-- Result of the coordinating loop: the process registry afterwards, the
pids passed to Process.Kill, whether stdinPipe.Close() was called, the
events written to the transport, and whether the loop has exited (loop =
false); finished = false means the schedule ended with the loop still
blocked on its select. -/
structure LoopResult where
  processes : List (Nat × ProcessInfo)
  killed : List Nat
  stdinClosed : Bool
  events : List StreamEvent
  finished : Bool
deriving DecidableEq, Repr

/-- Coordinating select loop of the streaming POST handler (execserver.go
lines 349-388), run over an explicit schedule of channel deliveries.  A
received stdout or stderr line is written and flushed; a closed-channel
receive writes nothing and loops again.  On doneCh the end event carries
the exit code and error message computed by the waiter goroutine, stdin is
closed and the loop stops; the waiter removed the pid from
processManager.processes (lines 341-343) before signalling doneCh.  On the
context's done channel the process is killed, the cancellation error event
is written, stdin is closed, the pid is removed from
processManager.processes under the mutex, and the loop stops. -/
def runLoop (pid : Nat) (exitCode : Int) (errMsg : String)
    (procs : List (Nat × ProcessInfo)) : List LoopEvent → LoopResult
  | [] => ⟨procs, [], false, [], false⟩
  | LoopEvent.stdoutMsg (some line) :: rest =>
      let r := runLoop pid exitCode errMsg procs rest
      { r with events := StreamEvent.stdout line :: r.events }
  | LoopEvent.stdoutMsg none :: rest => runLoop pid exitCode errMsg procs rest
  | LoopEvent.stderrMsg (some line) :: rest =>
      let r := runLoop pid exitCode errMsg procs rest
      { r with events := StreamEvent.stderr line :: r.events }
  | LoopEvent.stderrMsg none :: rest => runLoop pid exitCode errMsg procs rest
  | LoopEvent.done :: _ =>
      ⟨mapErase procs pid, [], true, [StreamEvent.endEv exitCode errMsg], true⟩
  | LoopEvent.cancelled :: _ =>
      ⟨mapErase procs pid, [pid], true,
        [StreamEvent.error "Command cancelled"], true⟩

/-- First terminating delivery (doneCh or context cancellation) of a
schedule, the one the select loop acts on before stopping. -/
def firstTerminator : List LoopEvent → Option LoopEvent
  | [] => none
  | LoopEvent.done :: _ => some LoopEvent.done
  | LoopEvent.cancelled :: _ => some LoopEvent.cancelled
  | LoopEvent.stdoutMsg _ :: rest => firstTerminator rest
  | LoopEvent.stderrMsg _ :: rest => firstTerminator rest

/-- Recognizer for the start event. -/
def isStart : StreamEvent → Bool
  | StreamEvent.start _ => true
  | _ => false

/-- Recognizer for the two terminal events, end and error. -/
def isTerminal : StreamEvent → Bool
  | StreamEvent.endEv _ _ => true
  | StreamEvent.error _ => true
  | _ => false

/-- Result of one full streaming POST request. -/
structure RunResult where
  state : ServerState
  httpError : Option HttpStatus
  spawned : Option Nat
  events : List StreamEvent
  writes : List (Nat × String)
  signalledDone : List Nat
  killed : List Nat
  stdinClosed : Bool
  finished : Bool
deriving DecidableEq, Repr

/-- Continuation of the streaming POST handler after setup: when no process
was spawned the handler has already returned; when one was spawned the
coordinating loop runs, and once it exits the handler deletes the
cmdWriterCache entry for req.TerminalId (execserver.go line 389) before
returning. -/
def runAfterSetup (req : execRequest) (setup : SetupResult)
    (sched : List LoopEvent) (exitCode : Int) (errMsg : String) : RunResult :=
  match setup.spawned with
  | none =>
      ⟨setup.state, setup.httpError, none, setup.events, setup.writes,
        setup.signalledDone, [], false, false⟩
  | some pid =>
      let lr := runLoop pid exitCode errMsg setup.state.processes sched
      ⟨{ setup.state with
          processes := lr.processes,
          cmdWriterCache :=
            if lr.finished then
              mapErase setup.state.cmdWriterCache req.terminalId
            else setup.state.cmdWriterCache },
        setup.httpError, some pid, setup.events ++ lr.events, setup.writes,
        setup.signalledDone, lr.killed, lr.stdinClosed, lr.finished⟩

/-- One full streaming POST request (execserver.go lines 210-390), from a
decoded body to handler return: setup (cache hit handling and spawn)
followed by the coordinating loop over the given delivery schedule.
exitCode and errMsg are the values the waiter goroutine computes from
cmd.Wait() (lines 327-338). -/
def streamPostRun (s : ServerState) (req : execRequest) (writeOk : Bool)
    (spawn : SpawnOutcome) (sched : List LoopEvent) (exitCode : Int)
    (errMsg : String) : RunResult :=
  runAfterSetup req (streamPostSetup s req writeOk spawn) sched exitCode errMsg

/-- Result of cmd.Run() on the one-shot path as the Go runtime reports it
(execserver.go line 131): either nil, an exec.ExitError carrying the
child's exit code, or some other error (launch failure, kill by the
30-second deadline). -/
inductive RunError where
  | exitError (code : Int) (msg : String)
  | other (msg : String)
deriving DecidableEq, Repr

/-- Message text of a run error, the value of err.Error(). -/
def runErrorMessage : RunError → String
  | RunError.exitError _ m => m
  | RunError.other m => m

/-- Outcome of one one-shot execution: the error from cmd.Run() (none on
success) and the bytes collected in the stdout and stderr buffers. -/
structure RunOutcome where
  err : Option RunError
  stdout : String
  stderr : String
deriving DecidableEq, Repr

/-- JSON response of POST /api/exec (execserver.go, type execResponse);
error is the empty string when the omitempty field is absent. -/
structure execResponse where
  stdout : String
  stderr : String
  exitCode : Int
  error : String
deriving DecidableEq, Repr

/-- Response computation of the one-shot handler (execserver.go lines
131-147): exit code 0 when cmd.Run() returns nil, the child's reported
exit code on an exec.ExitError, and -1 on any other error. -/
def oneShotResponse (o : RunOutcome) : execResponse :=
  match o.err with
  | none => ⟨o.stdout, o.stderr, 0, ""⟩
  | some e =>
      ⟨o.stdout, o.stderr,
        match e with
        | RunError.exitError code _ => code
        | RunError.other _ => -1,
        runErrorMessage e⟩

/-- Deadline applied to the one-shot execution context
(execserver.go line 122, context.WithTimeout 30 seconds). -/
def oneShotTimeoutSeconds : Nat := 30

/-- Outcome of cmd.Run() for the command echo hello under a POSIX shell:
clean exit, the line hello on stdout, nothing on stderr.  This models the
environment (the platform shell), not repository code. -/
def echoHelloOutcome : RunOutcome := ⟨none, "hello\n", ""⟩

/-- Operation performed on a tracked process's buffered stdin writer by the
input-injection handler. -/
inductive StdinOp where
  | write (pid : Nat) (input : String)
  | flush (pid : Nat)
deriving DecidableEq, Repr

/-- POST /api/exec/input handler after body decode (execserver.go lines
420-445): look the pid up in processManager.processes under a read lock;
404 and no stdin operation when absent; otherwise WriteString then Flush on
the buffered stdin writer, answering 500 on the first failing call and 200
with a success body if both succeed. -/
def handleExecInputPost (processes : List (Nat × ProcessInfo)) (pid : Nat)
    (input : String) : HttpStatus × List StdinOp :=
  match mapLookup processes pid with
  | none => (HttpStatus.notFound, [])
  | some info =>
      match info.writeErr with
      | some _ => (HttpStatus.internalError, [StdinOp.write pid input])
      | none =>
          match info.flushErr with
          | some _ =>
              (HttpStatus.internalError,
                [StdinOp.write pid input, StdinOp.flush pid])
          | none =>
              (HttpStatus.ok, [StdinOp.write pid input, StdinOp.flush pid])

/-- The two shared registries of the server: processManager.processes and
cmdWriterCache. -/
inductive Reg where
  | processReg
  | sessionReg
deriving DecidableEq, Repr

/-- Synchronization-relevant step of a handler: acquiring or releasing a
registry's reader/writer lock (rw = true for the write lock), or reading or
writing the registry's underlying map (write = true for an insert or
delete). -/
inductive SyncAction where
  | lock (r : Reg) (rw : Bool)
  | unlock (r : Reg) (rw : Bool)
  | access (r : Reg) (write : Bool)
deriving DecidableEq, Repr

/-- Check that along a trace every access to registry r happens while at
least one lock on r is held; d counts the locks on r currently held. -/
def guardedTrace (r : Reg) : Nat → List SyncAction → Bool
  | _, [] => true
  | d, SyncAction.lock r' _ :: rest =>
      guardedTrace r (if r' = r then d + 1 else d) rest
  | d, SyncAction.unlock r' _ :: rest =>
      guardedTrace r (if r' = r then d - 1 else d) rest
  | d, SyncAction.access r' _ :: rest =>
      if r' = r && decide (d = 0) then false else guardedTrace r d rest

/-- Every access to registry r in the trace is made under a held lock. -/
def regGuarded (r : Reg) (t : List SyncAction) : Bool := guardedTrace r 0 t

/-- Registry-touching steps of the DELETE branch of the streaming endpoint
(execserver.go lines 172-175): cmdWriterCache lookup, then delete; no lock
exists for this map. -/
def deleteBranchTrace : List SyncAction :=
  [SyncAction.access Reg.sessionReg false,
   SyncAction.access Reg.sessionReg true]

/-- Registry-touching steps of the GET branch of the streaming endpoint
(execserver.go lines 180-188): len and range over cmdWriterCache, unlocked. -/
def getBranchTrace : List SyncAction :=
  [SyncAction.access Reg.sessionReg false]

/-- Registry-touching steps of the POST branch of the streaming endpoint on
its longest path (execserver.go lines 220, 230, 279-281, 296, 383-385,
389): cmdWriterCache lookup, stale delete and insert without any lock;
processManager.processes insert and delete inside mutex.Lock/Unlock pairs;
final cmdWriterCache delete without a lock. -/
def postBranchTrace : List SyncAction :=
  [SyncAction.access Reg.sessionReg false,
   SyncAction.access Reg.sessionReg true,
   SyncAction.lock Reg.processReg true,
   SyncAction.access Reg.processReg true,
   SyncAction.unlock Reg.processReg true,
   SyncAction.access Reg.sessionReg true,
   SyncAction.lock Reg.processReg true,
   SyncAction.access Reg.processReg true,
   SyncAction.unlock Reg.processReg true,
   SyncAction.access Reg.sessionReg true]

/-- Registry-touching steps of the waiter goroutine (execserver.go lines
341-343): processManager.processes delete inside mutex.Lock/Unlock. -/
def waiterTrace : List SyncAction :=
  [SyncAction.lock Reg.processReg true,
   SyncAction.access Reg.processReg true,
   SyncAction.unlock Reg.processReg true]

/-- Registry-touching steps of the input-injection handler (execserver.go
lines 421-423): processManager.processes lookup inside RLock/RUnlock. -/
def inputHandlerTrace : List SyncAction :=
  [SyncAction.lock Reg.processReg false,
   SyncAction.access Reg.processReg false,
   SyncAction.unlock Reg.processReg false]

/-- Browser-side executeCommand (ui Terminal.vue, function executeCommand):
when cmd is the empty string the function returns before building or
sending any streaming POST; otherwise it issues the POST with the command,
terminal identifier and terminal name. -/
def executeCommandRequest (terminalId cmd terminalName : String) :
    Option execRequest :=
  if cmd = "" then none else some ⟨cmd, terminalId, terminalName⟩

/-- Server state with one live session t1 whose spawn owns stdin writer 5,
context 7 and done channel 9, and whose child process has pid 42. -/
def c3State : ServerState :=
  { cmdWriterCache := [("t1", ⟨5, 7, 9, "t1", "T1"⟩)],
    processes := [(42, ⟨none, none⟩)],
    closedWriters := [],
    cancelledCtxs := [],
    killedPids := [] }

theorem runAfterSetup_spawned_eq (req : execRequest) (setup : SetupResult)
    (sched : List LoopEvent) (ec : Int) (em : String) :
    (runAfterSetup req setup sched ec em).spawned = setup.spawned := by
  cases h : setup.spawned <;> simp [runAfterSetup, h]

theorem runAfterSetup_of_spawned (req : execRequest) (setup : SetupResult)
    (sched : List LoopEvent) (ec : Int) (em : String) (pid : Nat)
    (h : setup.spawned = some pid) :
    runAfterSetup req setup sched ec em =
      ⟨{ setup.state with
          processes := (runLoop pid ec em setup.state.processes sched).processes,
          cmdWriterCache :=
            if (runLoop pid ec em setup.state.processes sched).finished then
              mapErase setup.state.cmdWriterCache req.terminalId
            else setup.state.cmdWriterCache },
        setup.httpError, some pid,
        setup.events ++ (runLoop pid ec em setup.state.processes sched).events,
        setup.writes, setup.signalledDone,
        (runLoop pid ec em setup.state.processes sched).killed,
        (runLoop pid ec em setup.state.processes sched).stdinClosed,
        (runLoop pid ec em setup.state.processes sched).finished⟩ := by
  unfold runAfterSetup
  rw [h]

theorem streamPostSetup_events_of_spawned (s : ServerState) (req : execRequest)
    (w : Bool) (sp : SpawnOutcome) (pid : Nat)
    (h : (streamPostSetup s req w sp).spawned = some pid) :
    (streamPostSetup s req w sp).events = [StreamEvent.start pid] := by
  cases hm : mapLookup s.cmdWriterCache req.terminalId with
  | some c =>
      cases w with
      | true => simp [streamPostSetup, hm] at h
      | false =>
          cases sp <;> simp [streamPostSetup, spawnPath, hm] at h ⊢
          exact h
  | none =>
      cases sp <;> simp [streamPostSetup, spawnPath, hm] at h ⊢
      exact h

theorem runLoop_finished_iff (pid : Nat) (ec : Int) (em : String)
    (procs : List (Nat × ProcessInfo)) (sched : List LoopEvent) :
    (runLoop pid ec em procs sched).finished
      = (firstTerminator sched).isSome := by
  induction sched with
  | nil => rfl
  | cons e rest ih =>
      cases e with
      | stdoutMsg line =>
          cases line <;> simpa [runLoop, firstTerminator] using ih
      | stderrMsg line =>
          cases line <;> simpa [runLoop, firstTerminator] using ih
      | done => rfl
      | cancelled => rfl

theorem runLoop_events_decomp (pid : Nat) (ec : Int) (em : String)
    (procs : List (Nat × ProcessInfo)) (sched : List LoopEvent)
    (h : (firstTerminator sched).isSome = true) :
    ∃ mid t, (runLoop pid ec em procs sched).events = mid ++ [t]
      ∧ (∀ e ∈ mid, isStart e = false ∧ isTerminal e = false)
      ∧ isStart t = false ∧ isTerminal t = true
      ∧ (firstTerminator sched = some LoopEvent.done →
          t = StreamEvent.endEv ec em)
      ∧ (firstTerminator sched = some LoopEvent.cancelled →
          t = StreamEvent.error "Command cancelled") := by
  induction sched with
  | nil => simp [firstTerminator] at h
  | cons e rest ih =>
      cases e with
      | stdoutMsg line =>
          have h' : (firstTerminator rest).isSome = true := by
            simpa [firstTerminator] using h
          obtain ⟨mid, t, he, hmid, hts, htt, hdone, hcan⟩ := ih h'
          cases line with
          | none =>
              refine ⟨mid, t, by simpa [runLoop] using he, hmid, hts, htt, ?_, ?_⟩
              · intro hd
                exact hdone (by simpa [firstTerminator] using hd)
              · intro hc
                exact hcan (by simpa [firstTerminator] using hc)
          | some l =>
              refine ⟨StreamEvent.stdout l :: mid, t, ?_, ?_, hts, htt, ?_, ?_⟩
              · simp [runLoop, he]
              · intro e he'
                rcases List.mem_cons.mp he' with rfl | hmem
                · exact ⟨rfl, rfl⟩
                · exact hmid e hmem
              · intro hd
                exact hdone (by simpa [firstTerminator] using hd)
              · intro hc
                exact hcan (by simpa [firstTerminator] using hc)
      | stderrMsg line =>
          have h' : (firstTerminator rest).isSome = true := by
            simpa [firstTerminator] using h
          obtain ⟨mid, t, he, hmid, hts, htt, hdone, hcan⟩ := ih h'
          cases line with
          | none =>
              refine ⟨mid, t, by simpa [runLoop] using he, hmid, hts, htt, ?_, ?_⟩
              · intro hd
                exact hdone (by simpa [firstTerminator] using hd)
              · intro hc
                exact hcan (by simpa [firstTerminator] using hc)
          | some l =>
              refine ⟨StreamEvent.stderr l :: mid, t, ?_, ?_, hts, htt, ?_, ?_⟩
              · simp [runLoop, he]
              · intro e he'
                rcases List.mem_cons.mp he' with rfl | hmem
                · exact ⟨rfl, rfl⟩
                · exact hmid e hmem
              · intro hd
                exact hdone (by simpa [firstTerminator] using hd)
              · intro hc
                exact hcan (by simpa [firstTerminator] using hc)
      | done =>
          refine ⟨[], StreamEvent.endEv ec em, rfl, by simp, rfl, rfl,
            fun _ => rfl, fun hc => ?_⟩
          simp [firstTerminator] at hc
      | cancelled =>
          refine ⟨[], StreamEvent.error "Command cancelled", rfl, by simp,
            rfl, rfl, fun hd => ?_, fun _ => rfl⟩
          simp [firstTerminator] at hd

theorem runLoop_cancelled_state (pid : Nat) (ec : Int) (em : String)
    (procs : List (Nat × ProcessInfo)) (sched : List LoopEvent)
    (h : firstTerminator sched = some LoopEvent.cancelled) :
    (runLoop pid ec em procs sched).processes = mapErase procs pid
    ∧ (runLoop pid ec em procs sched).killed = [pid]
    ∧ (runLoop pid ec em procs sched).stdinClosed = true
    ∧ (runLoop pid ec em procs sched).finished = true
    ∧ StreamEvent.error "Command cancelled"
        ∈ (runLoop pid ec em procs sched).events := by
  induction sched with
  | nil => simp [firstTerminator] at h
  | cons e rest ih =>
      cases e with
      | stdoutMsg line =>
          have h' : firstTerminator rest = some LoopEvent.cancelled := by
            simpa [firstTerminator] using h
          obtain ⟨h1, h2, h3, h4, h5⟩ := ih h'
          cases line with
          | none => exact ⟨by simpa [runLoop] using h1,
              by simpa [runLoop] using h2, by simpa [runLoop] using h3,
              by simpa [runLoop] using h4, by simpa [runLoop] using h5⟩
          | some l => exact ⟨by simpa [runLoop] using h1,
              by simpa [runLoop] using h2, by simpa [runLoop] using h3,
              by simpa [runLoop] using h4, by simp [runLoop, h5]⟩
      | stderrMsg line =>
          have h' : firstTerminator rest = some LoopEvent.cancelled := by
            simpa [firstTerminator] using h
          obtain ⟨h1, h2, h3, h4, h5⟩ := ih h'
          cases line with
          | none => exact ⟨by simpa [runLoop] using h1,
              by simpa [runLoop] using h2, by simpa [runLoop] using h3,
              by simpa [runLoop] using h4, by simpa [runLoop] using h5⟩
          | some l => exact ⟨by simpa [runLoop] using h1,
              by simpa [runLoop] using h2, by simpa [runLoop] using h3,
              by simpa [runLoop] using h4, by simp [runLoop, h5]⟩
      | done => simp [firstTerminator] at h
      | cancelled => exact ⟨rfl, rfl, rfl, rfl, by simp [runLoop]⟩

theorem streamPostSetup_insertion (s : ServerState) (req : execRequest)
    (w : Bool) (sp : SpawnOutcome) (k : String)
    (hne : mapLookup (streamPostSetup s req w sp).state.cmdWriterCache k
        ≠ mapLookup s.cmdWriterCache k)
    (hsome : (mapLookup (streamPostSetup s req w sp).state.cmdWriterCache
        k).isSome = true) :
    (streamPostSetup s req w sp).spawned.isSome = true
      ∧ k = req.terminalId := by
  by_cases hk : k = req.terminalId
  · subst hk
    cases hm : mapLookup s.cmdWriterCache req.terminalId with
    | some c =>
        cases w with
        | true => simp [streamPostSetup, hm] at hne
        | false =>
            cases sp with
            | ok pid wid cid did =>
                simp [streamPostSetup, spawnPath, hm]
            | stdinPipeErr =>
                simp [streamPostSetup, spawnPath, hm,
                  mapLookup_mapErase_self] at hsome
            | stdoutPipeErr =>
                simp [streamPostSetup, spawnPath, hm,
                  mapLookup_mapErase_self] at hsome
            | stderrPipeErr =>
                simp [streamPostSetup, spawnPath, hm,
                  mapLookup_mapErase_self] at hsome
            | startErr =>
                simp [streamPostSetup, spawnPath, hm,
                  mapLookup_mapErase_self] at hsome
    | none =>
        cases sp with
        | ok pid wid cid did => simp [streamPostSetup, spawnPath, hm]
        | stdinPipeErr => simp [streamPostSetup, spawnPath, hm] at hne
        | stdoutPipeErr => simp [streamPostSetup, spawnPath, hm] at hne
        | stderrPipeErr => simp [streamPostSetup, spawnPath, hm] at hne
        | startErr => simp [streamPostSetup, spawnPath, hm] at hne
  · exfalso
    apply hne
    have hkk : req.terminalId ≠ k := fun hx => hk hx.symm
    cases hm : mapLookup s.cmdWriterCache req.terminalId with
    | some c =>
        cases w with
        | true => simp [streamPostSetup, hm]
        | false =>
            cases sp with
            | ok pid wid cid did =>
                simp [streamPostSetup, spawnPath, hm,
                  mapLookup_mapInsert_ne _ _ _ _ hkk,
                  mapLookup_mapErase_ne _ _ _ hkk]
            | stdinPipeErr =>
                simp [streamPostSetup, spawnPath, hm,
                  mapLookup_mapErase_ne _ _ _ hkk]
            | stdoutPipeErr =>
                simp [streamPostSetup, spawnPath, hm,
                  mapLookup_mapErase_ne _ _ _ hkk]
            | stderrPipeErr =>
                simp [streamPostSetup, spawnPath, hm,
                  mapLookup_mapErase_ne _ _ _ hkk]
            | startErr =>
                simp [streamPostSetup, spawnPath, hm,
                  mapLookup_mapErase_ne _ _ _ hkk]
    | none =>
        cases sp with
        | ok pid wid cid did =>
            simp [streamPostSetup, spawnPath, hm,
              mapLookup_mapInsert_ne _ _ _ _ hkk]
        | stdinPipeErr => simp [streamPostSetup, spawnPath, hm]
        | stdoutPipeErr => simp [streamPostSetup, spawnPath, hm]
        | stderrPipeErr => simp [streamPostSetup, spawnPath, hm]
        | startErr => simp [streamPostSetup, spawnPath, hm]

theorem streamPostSetup_keysNodup (s : ServerState) (req : execRequest)
    (w : Bool) (sp : SpawnOutcome) (h : keysNodup s.cmdWriterCache) :
    keysNodup (streamPostSetup s req w sp).state.cmdWriterCache := by
  cases hm : mapLookup s.cmdWriterCache req.terminalId with
  | some c =>
      cases w with
      | true => simpa [streamPostSetup, hm] using h
      | false =>
          cases sp with
          | ok pid wid cid did =>
              simp only [streamPostSetup, hm, Bool.false_eq_true, if_false,
                spawnPath]
              exact keysNodup_mapInsert _ _ _ (keysNodup_mapErase _ _ h)
          | stdinPipeErr =>
              simp only [streamPostSetup, hm, Bool.false_eq_true, if_false,
                spawnPath]
              exact keysNodup_mapErase _ _ h
          | stdoutPipeErr =>
              simp only [streamPostSetup, hm, Bool.false_eq_true, if_false,
                spawnPath]
              exact keysNodup_mapErase _ _ h
          | stderrPipeErr =>
              simp only [streamPostSetup, hm, Bool.false_eq_true, if_false,
                spawnPath]
              exact keysNodup_mapErase _ _ h
          | startErr =>
              simp only [streamPostSetup, hm, Bool.false_eq_true, if_false,
                spawnPath]
              exact keysNodup_mapErase _ _ h
  | none =>
      cases sp with
      | ok pid wid cid did =>
          simp only [streamPostSetup, hm, spawnPath]
          exact keysNodup_mapInsert _ _ _ h
      | stdinPipeErr => simpa [streamPostSetup, hm, spawnPath] using h
      | stdoutPipeErr => simpa [streamPostSetup, hm, spawnPath] using h
      | stderrPipeErr => simpa [streamPostSetup, hm, spawnPath] using h
      | startErr => simpa [streamPostSetup, hm, spawnPath] using h

/-- C1: a streaming POST whose terminalId has a live cmdWriterCache entry
and whose write of the command to that entry's stdin writer succeeds
returns without spawning: no process is created, no event is written, and
the server state is unchanged; the command plus a newline is written to the
existing entry's writer.  Moreover an entry only ever becomes present or
changes at a key when the setup phase spawned a process, and then only at
req.terminalId, and setup preserves key uniqueness of the session
registry, so the registry holds at most one entry per identifier. -/
theorem c1_existing_session_no_spawn (s : ServerState) (req : execRequest)
    (spawn : SpawnOutcome) (sched : List LoopEvent) (ec : Int) (em : String)
    (c : TerminalCache)
    (hhit : mapLookup s.cmdWriterCache req.terminalId = some c) :
    (streamPostRun s req true spawn sched ec em).spawned = none
    ∧ (streamPostRun s req true spawn sched ec em).state = s
    ∧ (streamPostRun s req true spawn sched ec em).events = []
    ∧ (streamPostRun s req true spawn sched ec em).writes
        = [(c.writerId, req.cmd ++ "\n")]
    ∧ (∀ (s₂ : ServerState) (req₂ : execRequest) (w₂ : Bool)
        (sp₂ : SpawnOutcome) (k : String),
        mapLookup (streamPostSetup s₂ req₂ w₂ sp₂).state.cmdWriterCache k
            ≠ mapLookup s₂.cmdWriterCache k →
        (mapLookup (streamPostSetup s₂ req₂ w₂ sp₂).state.cmdWriterCache
            k).isSome = true →
        (streamPostSetup s₂ req₂ w₂ sp₂).spawned.isSome = true
          ∧ k = req₂.terminalId)
    ∧ (∀ (s₃ : ServerState) (req₃ : execRequest) (w₃ : Bool)
        (sp₃ : SpawnOutcome), keysNodup s₃.cmdWriterCache →
        keysNodup (streamPostSetup s₃ req₃ w₃ sp₃).state.cmdWriterCache) := by
  have hsetup : streamPostSetup s req true spawn
      = ⟨s, none, none, [], [(c.writerId, req.cmd ++ "\n")], []⟩ := by
    unfold streamPostSetup
    rw [hhit]
    rfl
  refine ⟨?_, ?_, ?_, ?_, ?_, ?_⟩
  · simp [streamPostRun, hsetup, runAfterSetup]
  · simp [streamPostRun, hsetup, runAfterSetup]
  · simp [streamPostRun, hsetup, runAfterSetup]
  · simp [streamPostRun, hsetup, runAfterSetup]
  · intro s₂ req₂ w₂ sp₂ k hne hsome
    exact streamPostSetup_insertion s₂ req₂ w₂ sp₂ k hne hsome
  · intro s₃ req₃ w₃ sp₃ h₃
    exact streamPostSetup_keysNodup s₃ req₃ w₃ sp₃ h₃

/-- Witness for C1 at a concrete state holding a live session t1. -/
theorem c1_existing_session_no_spawn_witness :
    (mapLookup [("t1", (⟨5, 7, 9, "t1", "T1"⟩ : TerminalCache))] "t1"
      = some ⟨5, 7, 9, "t1", "T1"⟩)
    ∧ ((streamPostRun ⟨[("t1", ⟨5, 7, 9, "t1", "T1"⟩)], [], [], [], []⟩
          ⟨"ls", "t1", "T1"⟩ true SpawnOutcome.startErr [] 0 "").spawned = none
      ∧ (streamPostRun ⟨[("t1", ⟨5, 7, 9, "t1", "T1"⟩)], [], [], [], []⟩
          ⟨"ls", "t1", "T1"⟩ true SpawnOutcome.startErr [] 0 "").state
          = ⟨[("t1", ⟨5, 7, 9, "t1", "T1"⟩)], [], [], [], []⟩
      ∧ (streamPostRun ⟨[("t1", ⟨5, 7, 9, "t1", "T1"⟩)], [], [], [], []⟩
          ⟨"ls", "t1", "T1"⟩ true SpawnOutcome.startErr [] 0 "").events = []
      ∧ (streamPostRun ⟨[("t1", ⟨5, 7, 9, "t1", "T1"⟩)], [], [], [], []⟩
          ⟨"ls", "t1", "T1"⟩ true SpawnOutcome.startErr [] 0 "").writes
          = [(5, "ls" ++ "\n")]
      ∧ (∀ (s₂ : ServerState) (req₂ : execRequest) (w₂ : Bool)
          (sp₂ : SpawnOutcome) (k : String),
          mapLookup (streamPostSetup s₂ req₂ w₂ sp₂).state.cmdWriterCache k
              ≠ mapLookup s₂.cmdWriterCache k →
          (mapLookup (streamPostSetup s₂ req₂ w₂ sp₂).state.cmdWriterCache
              k).isSome = true →
          (streamPostSetup s₂ req₂ w₂ sp₂).spawned.isSome = true
            ∧ k = req₂.terminalId)
      ∧ (∀ (s₃ : ServerState) (req₃ : execRequest) (w₃ : Bool)
          (sp₃ : SpawnOutcome), keysNodup s₃.cmdWriterCache →
          keysNodup (streamPostSetup s₃ req₃ w₃ sp₃).state.cmdWriterCache)) :=
  ⟨by decide,
    c1_existing_session_no_spawn ⟨[("t1", ⟨5, 7, 9, "t1", "T1"⟩)], [], [], [], []⟩
      ⟨"ls", "t1", "T1"⟩ SpawnOutcome.startErr [] 0 "" ⟨5, 7, 9, "t1", "T1"⟩
      (by decide)⟩

/-- C3 (code bug): a DELETE for a terminalId with a live session entry
closes the entry's stdin writer and deletes the entry from cmdWriterCache,
but it does not cancel the session's execution context and does not kill
the child process: the code's c.Writer.Close() and delete happen, while
c.Context.Done() merely returns the context's done channel.  Evaluated at
a state with live session t1 whose child has pid 42: writer 5 is closed,
the entry is gone, yet cancelledCtxs and killedPids stay empty and pid 42
is still registered. -/
theorem c3_terminate_does_not_cancel :
    handleTerminalDelete c3State "t1"
      = ({ cmdWriterCache := [],
           processes := [(42, ⟨none, none⟩)],
           closedWriters := [5],
           cancelledCtxs := [],
           killedPids := [] }, HttpStatus.ok) := by
  decide

/-- C5: the one-shot POST /api/exec response carries exit code 0 on a clean
exit, the child's reported code on an exec.ExitError (exit 3 yields exactly
3), and -1 on any other failure; echo hello yields stdout hello newline,
empty stderr and exit code 0; the execution context carries a 30-second
deadline. -/
theorem c5_one_shot_exit_codes (out errS msg : String) (code : Int) :
    oneShotResponse ⟨none, out, errS⟩ = ⟨out, errS, 0, ""⟩
    ∧ oneShotResponse ⟨some (RunError.exitError code msg), out, errS⟩
        = ⟨out, errS, code, msg⟩
    ∧ oneShotResponse ⟨some (RunError.exitError 3 "exit status 3"), out, errS⟩
        = ⟨out, errS, 3, "exit status 3"⟩
    ∧ oneShotResponse ⟨some (RunError.other msg), out, errS⟩
        = ⟨out, errS, -1, msg⟩
    ∧ oneShotResponse echoHelloOutcome = ⟨"hello\n", "", 0, ""⟩
    ∧ oneShotTimeoutSeconds = 30 :=
  ⟨rfl, rfl, rfl, rfl, rfl, rfl⟩

/-- C7: a streaming POST that finds a cached entry but whose write to the
cached stdin writer fails removes the stale entry, signals the stale
session's done channel, and falls through to spawn a fresh process for the
same terminalId: no error response is sent, a new pid is spawned and
registered, and the cache entry for the terminalId is the fresh one bound
to the new stdin pipe, context and done channel. -/
theorem c7_stale_session_respawn (s : ServerState) (req : execRequest)
    (c : TerminalCache) (pid wid cid did : Nat)
    (hhit : mapLookup s.cmdWriterCache req.terminalId = some c) :
    (streamPostSetup s req false (SpawnOutcome.ok pid wid cid did)).httpError
        = none
    ∧ (streamPostSetup s req false (SpawnOutcome.ok pid wid cid did)).spawned
        = some pid
    ∧ mapLookup (streamPostSetup s req false
          (SpawnOutcome.ok pid wid cid did)).state.cmdWriterCache
        req.terminalId
        = some ⟨wid, cid, did, req.terminalId, req.terminalName⟩
    ∧ mapLookup (streamPostSetup s req false
          (SpawnOutcome.ok pid wid cid did)).state.processes pid
        = some ⟨none, none⟩
    ∧ (streamPostSetup s req false
          (SpawnOutcome.ok pid wid cid did)).signalledDone = [c.doneChId]
    ∧ (streamPostSetup s req false (SpawnOutcome.ok pid wid cid did)).events
        = [StreamEvent.start pid] := by
  have hsetup : streamPostSetup s req false (SpawnOutcome.ok pid wid cid did)
      = spawnPath
          { s with cmdWriterCache := mapErase s.cmdWriterCache req.terminalId }
          req (SpawnOutcome.ok pid wid cid did)
          [(c.writerId, req.cmd ++ "\n")] [c.doneChId] := by
    unfold streamPostSetup
    rw [hhit]
    rfl
  rw [hsetup]
  unfold spawnPath
  exact ⟨rfl, rfl, mapLookup_mapInsert_self _ _ _,
    mapLookup_mapInsert_self _ _ _, rfl, rfl⟩

/-- Witness for C7 at a concrete state holding a stale session t1. -/
theorem c7_stale_session_respawn_witness :
    (mapLookup [("t1", (⟨5, 7, 9, "t1", "T1"⟩ : TerminalCache))] "t1"
      = some ⟨5, 7, 9, "t1", "T1"⟩)
    ∧ ((streamPostSetup ⟨[("t1", ⟨5, 7, 9, "t1", "T1"⟩)], [], [], [], []⟩
          ⟨"top", "t1", "T1"⟩ false (SpawnOutcome.ok 43 6 8 10)).httpError
        = none
      ∧ (streamPostSetup ⟨[("t1", ⟨5, 7, 9, "t1", "T1"⟩)], [], [], [], []⟩
          ⟨"top", "t1", "T1"⟩ false (SpawnOutcome.ok 43 6 8 10)).spawned
        = some 43
      ∧ mapLookup (streamPostSetup
            ⟨[("t1", ⟨5, 7, 9, "t1", "T1"⟩)], [], [], [], []⟩
            ⟨"top", "t1", "T1"⟩ false
            (SpawnOutcome.ok 43 6 8 10)).state.cmdWriterCache "t1"
        = some ⟨6, 8, 10, "t1", "T1"⟩
      ∧ mapLookup (streamPostSetup
            ⟨[("t1", ⟨5, 7, 9, "t1", "T1"⟩)], [], [], [], []⟩
            ⟨"top", "t1", "T1"⟩ false
            (SpawnOutcome.ok 43 6 8 10)).state.processes 43
        = some ⟨none, none⟩
      ∧ (streamPostSetup ⟨[("t1", ⟨5, 7, 9, "t1", "T1"⟩)], [], [], [], []⟩
          ⟨"top", "t1", "T1"⟩ false (SpawnOutcome.ok 43 6 8 10)).signalledDone
        = [9]
      ∧ (streamPostSetup ⟨[("t1", ⟨5, 7, 9, "t1", "T1"⟩)], [], [], [], []⟩
          ⟨"top", "t1", "T1"⟩ false (SpawnOutcome.ok 43 6 8 10)).events
        = [StreamEvent.start 43]) :=
  ⟨by decide,
    c7_stale_session_respawn ⟨[("t1", ⟨5, 7, 9, "t1", "T1"⟩)], [], [], [], []⟩
      ⟨"top", "t1", "T1"⟩ ⟨5, 7, 9, "t1", "T1"⟩ 43 6 8 10 (by decide)⟩

/-- C10: a DELETE naming a terminalId with no live entry returns status 200
and leaves the whole server state unchanged, and termination is idempotent
on the state: a second DELETE for the same identifier after a first one is
a no-op. -/
theorem c10_delete_idempotent (s : ServerState) (tid : String)
    (h : mapLookup s.cmdWriterCache tid = none) :
    handleTerminalDelete s tid = (s, HttpStatus.ok)
    ∧ ∀ s₂ : ServerState,
        handleTerminalDelete (handleTerminalDelete s₂ tid).1 tid
          = ((handleTerminalDelete s₂ tid).1, HttpStatus.ok) := by
  constructor
  · unfold handleTerminalDelete
    rw [h]
  · intro s₂
    cases hm : mapLookup s₂.cmdWriterCache tid with
    | none => simp [handleTerminalDelete, hm]
    | some c => simp [handleTerminalDelete, hm, mapLookup_mapErase_self]

/-- Witness for C10 at a concrete state with no session t9. -/
theorem c10_delete_idempotent_witness :
    (mapLookup (ServerState.cmdWriterCache ⟨[], [], [], [], []⟩) "t9" = none)
    ∧ (handleTerminalDelete ⟨[], [], [], [], []⟩ "t9"
        = (⟨[], [], [], [], []⟩, HttpStatus.ok)
      ∧ ∀ s₂ : ServerState,
          handleTerminalDelete (handleTerminalDelete s₂ "t9").1 "t9"
            = ((handleTerminalDelete s₂ "t9").1, HttpStatus.ok)) :=
  ⟨rfl, c10_delete_idempotent ⟨[], [], [], [], []⟩ "t9" rfl⟩

/-- C2: for every spawned process instance on the streaming path, the
transport sees exactly one start event, carrying the new pid and preceding
every other event of the instance; everything between it and the terminal
event is a stdout or stderr line; and when the coordinating loop finishes
there is exactly one terminal event — end with the waiter's exit code when
doneCh fired first, the cancellation error when the context fired first —
and nothing follows it. -/
theorem c2_stream_event_ordering (s : ServerState) (req : execRequest)
    (writeOk : Bool) (spawn : SpawnOutcome) (sched : List LoopEvent)
    (ec : Int) (em : String) (pid : Nat)
    (hsp : (streamPostRun s req writeOk spawn sched ec em).spawned = some pid)
    (hfin : (streamPostRun s req writeOk spawn sched ec em).finished = true) :
    ∃ mid t,
      (streamPostRun s req writeOk spawn sched ec em).events
        = StreamEvent.start pid :: (mid ++ [t])
      ∧ (∀ e ∈ mid, isStart e = false ∧ isTerminal e = false)
      ∧ isStart t = false ∧ isTerminal t = true
      ∧ (firstTerminator sched = some LoopEvent.done →
          t = StreamEvent.endEv ec em)
      ∧ (firstTerminator sched = some LoopEvent.cancelled →
          t = StreamEvent.error "Command cancelled") := by
  have hsp' : (streamPostSetup s req writeOk spawn).spawned = some pid := by
    rw [← runAfterSetup_spawned_eq req (streamPostSetup s req writeOk spawn)
      sched ec em]
    exact hsp
  have hr := runAfterSetup_of_spawned req (streamPostSetup s req writeOk spawn)
    sched ec em pid hsp'
  have hev := streamPostSetup_events_of_spawned s req writeOk spawn pid hsp'
  have hfin' : (runLoop pid ec em
      (streamPostSetup s req writeOk spawn).state.processes sched).finished
      = true := by
    have hx := hfin
    simp only [streamPostRun] at hx
    rw [hr] at hx
    exact hx
  have hterm : (firstTerminator sched).isSome = true := by
    rw [← runLoop_finished_iff pid ec em
      (streamPostSetup s req writeOk spawn).state.processes sched]
    exact hfin'
  obtain ⟨mid, t, he, hmid, hts, htt, hdone, hcan⟩ :=
    runLoop_events_decomp pid ec em
      (streamPostSetup s req writeOk spawn).state.processes sched hterm
  refine ⟨mid, t, ?_, hmid, hts, htt, hdone, hcan⟩
  simp only [streamPostRun]
  rw [hr]
  simp [hev, he]

/-- Witness for C2 on a run spawning pid 42 that prints one line and ends. -/
theorem c2_stream_event_ordering_witness :
    ((streamPostRun ⟨[], [], [], [], []⟩ ⟨"ls", "t1", "T1"⟩ true
        (SpawnOutcome.ok 42 1 2 3)
        [LoopEvent.stdoutMsg (some "hello"), LoopEvent.done] 0 "").spawned
      = some 42)
    ∧ ((streamPostRun ⟨[], [], [], [], []⟩ ⟨"ls", "t1", "T1"⟩ true
        (SpawnOutcome.ok 42 1 2 3)
        [LoopEvent.stdoutMsg (some "hello"), LoopEvent.done] 0 "").finished
      = true)
    ∧ (∃ mid t,
        (streamPostRun ⟨[], [], [], [], []⟩ ⟨"ls", "t1", "T1"⟩ true
          (SpawnOutcome.ok 42 1 2 3)
          [LoopEvent.stdoutMsg (some "hello"), LoopEvent.done] 0 "").events
          = StreamEvent.start 42 :: (mid ++ [t])
        ∧ (∀ e ∈ mid, isStart e = false ∧ isTerminal e = false)
        ∧ isStart t = false ∧ isTerminal t = true
        ∧ (firstTerminator [LoopEvent.stdoutMsg (some "hello"), LoopEvent.done]
            = some LoopEvent.done → t = StreamEvent.endEv 0 "")
        ∧ (firstTerminator [LoopEvent.stdoutMsg (some "hello"), LoopEvent.done]
            = some LoopEvent.cancelled →
            t = StreamEvent.error "Command cancelled")) :=
  ⟨by decide, by decide,
    c2_stream_event_ordering ⟨[], [], [], [], []⟩ ⟨"ls", "t1", "T1"⟩ true
      (SpawnOutcome.ok 42 1 2 3)
      [LoopEvent.stdoutMsg (some "hello"), LoopEvent.done] 0 "" 42
      (by decide) (by decide)⟩

/-- C4: whenever the streaming handler's context fires before the child
completes (the loop's first terminating delivery is the cancellation), the
loop kills the child, writes the Command cancelled error event, closes the
stdin pipe, and by the time the handler returns the pid is gone from
processManager.processes and the terminalId is gone from cmdWriterCache. -/
theorem c4_cancellation_cleanup (s : ServerState) (req : execRequest)
    (writeOk : Bool) (spawn : SpawnOutcome) (sched : List LoopEvent)
    (ec : Int) (em : String) (pid : Nat)
    (hsp : (streamPostRun s req writeOk spawn sched ec em).spawned = some pid)
    (hcan : firstTerminator sched = some LoopEvent.cancelled) :
    pid ∈ (streamPostRun s req writeOk spawn sched ec em).killed
    ∧ StreamEvent.error "Command cancelled"
        ∈ (streamPostRun s req writeOk spawn sched ec em).events
    ∧ (streamPostRun s req writeOk spawn sched ec em).stdinClosed = true
    ∧ mapLookup
        (streamPostRun s req writeOk spawn sched ec em).state.processes pid
        = none
    ∧ mapLookup
        (streamPostRun s req writeOk spawn sched ec em).state.cmdWriterCache
        req.terminalId = none
    ∧ (streamPostRun s req writeOk spawn sched ec em).finished = true := by
  have hsp' : (streamPostSetup s req writeOk spawn).spawned = some pid := by
    rw [← runAfterSetup_spawned_eq req (streamPostSetup s req writeOk spawn)
      sched ec em]
    exact hsp
  have hr := runAfterSetup_of_spawned req (streamPostSetup s req writeOk spawn)
    sched ec em pid hsp'
  obtain ⟨h1, h2, h3, h4, h5⟩ := runLoop_cancelled_state pid ec em
    (streamPostSetup s req writeOk spawn).state.processes sched hcan
  refine ⟨?_, ?_, ?_, ?_, ?_, ?_⟩ <;> simp only [streamPostRun] <;> rw [hr]
  · simp [h2]
  · simp [h5]
  · simpa using h3
  · show mapLookup (runLoop pid ec em
        (streamPostSetup s req writeOk spawn).state.processes sched).processes
        pid = none
    rw [h1]
    exact mapLookup_mapErase_self _ _
  · show mapLookup (if (runLoop pid ec em
        (streamPostSetup s req writeOk spawn).state.processes sched).finished
        then mapErase (streamPostSetup s req writeOk
          spawn).state.cmdWriterCache req.terminalId
        else (streamPostSetup s req writeOk spawn).state.cmdWriterCache)
        req.terminalId = none
    rw [h4]
    simpa using mapLookup_mapErase_self
      (streamPostSetup s req writeOk spawn).state.cmdWriterCache req.terminalId
  · simpa using h4

/-- Witness for C4 on a run spawning pid 42 cancelled before completion. -/
theorem c4_cancellation_cleanup_witness :
    ((streamPostRun ⟨[], [], [], [], []⟩ ⟨"sleep 60", "t1", "T1"⟩ true
        (SpawnOutcome.ok 42 1 2 3) [LoopEvent.cancelled] 0 "").spawned
      = some 42)
    ∧ (firstTerminator [LoopEvent.cancelled] = some LoopEvent.cancelled)
    ∧ (42 ∈ (streamPostRun ⟨[], [], [], [], []⟩ ⟨"sleep 60", "t1", "T1"⟩ true
          (SpawnOutcome.ok 42 1 2 3) [LoopEvent.cancelled] 0 "").killed
      ∧ StreamEvent.error "Command cancelled"
          ∈ (streamPostRun ⟨[], [], [], [], []⟩ ⟨"sleep 60", "t1", "T1"⟩ true
            (SpawnOutcome.ok 42 1 2 3) [LoopEvent.cancelled] 0 "").events
      ∧ (streamPostRun ⟨[], [], [], [], []⟩ ⟨"sleep 60", "t1", "T1"⟩ true
          (SpawnOutcome.ok 42 1 2 3) [LoopEvent.cancelled] 0 "").stdinClosed
        = true
      ∧ mapLookup (streamPostRun ⟨[], [], [], [], []⟩ ⟨"sleep 60", "t1", "T1"⟩
          true (SpawnOutcome.ok 42 1 2 3)
          [LoopEvent.cancelled] 0 "").state.processes 42 = none
      ∧ mapLookup (streamPostRun ⟨[], [], [], [], []⟩ ⟨"sleep 60", "t1", "T1"⟩
          true (SpawnOutcome.ok 42 1 2 3)
          [LoopEvent.cancelled] 0 "").state.cmdWriterCache "t1" = none
      ∧ (streamPostRun ⟨[], [], [], [], []⟩ ⟨"sleep 60", "t1", "T1"⟩ true
          (SpawnOutcome.ok 42 1 2 3) [LoopEvent.cancelled] 0 "").finished
        = true) :=
  ⟨by decide, by decide,
    c4_cancellation_cleanup ⟨[], [], [], [], []⟩ ⟨"sleep 60", "t1", "T1"⟩ true
      (SpawnOutcome.ok 42 1 2 3) [LoopEvent.cancelled] 0 "" 42
      (by decide) (by decide)⟩

/-- C6 counterexample: a streaming POST with a zero-length command that
does reach the server is not rejected before spawning: on a cache miss the
handler spawns the shell (here pid 42) and inserts a cmdWriterCache entry
for its terminalId, contradicting that no child process is created and no
registry entry is inserted. -/
theorem c6_empty_cmd_server_spawns :
    ((streamPostSetup ⟨[], [], [], [], []⟩ ⟨"", "t1", "T1"⟩ true
        (SpawnOutcome.ok 42 1 2 3)).spawned = some 42)
    ∧ (mapLookup (streamPostSetup ⟨[], [], [], [], []⟩ ⟨"", "t1", "T1"⟩ true
        (SpawnOutcome.ok 42 1 2 3)).state.cmdWriterCache "t1"
      = some ⟨1, 2, 3, "t1", "T1"⟩) := by
  decide

/-- C6 (amended): the zero-length command is rejected in the browser
client, not in the server: executeCommand returns before issuing any
streaming POST when cmd is empty, so no process is created and the prompt
is left unchanged; a zero-length POST that reaches the server directly
spawns a process as usual. -/
theorem c6_empty_cmd_client_guard (tid cmd tn : String) (h : cmd = "") :
    executeCommandRequest tid cmd tn = none
    ∧ ∀ (s : ServerState) (pid wid cid did : Nat),
        mapLookup s.cmdWriterCache tid = none →
        (streamPostSetup s ⟨cmd, tid, tn⟩ true
          (SpawnOutcome.ok pid wid cid did)).spawned = some pid := by
  subst h
  constructor
  · rfl
  · intro s pid wid cid did hm
    simp [streamPostSetup, spawnPath, hm]

/-- Witness for C6 at the empty command for terminal t1. -/
theorem c6_empty_cmd_client_guard_witness :
    (("" : String) = "")
    ∧ (executeCommandRequest "t1" "" "T1" = none
      ∧ ∀ (s : ServerState) (pid wid cid did : Nat),
          mapLookup s.cmdWriterCache "t1" = none →
          (streamPostSetup s ⟨"", "t1", "T1"⟩ true
            (SpawnOutcome.ok pid wid cid did)).spawned = some pid) :=
  ⟨rfl, c6_empty_cmd_client_guard "t1" "" "T1" rfl⟩

/-- C8: input injection for a pid absent from processManager.processes
answers 404 and performs no stdin operation; for a registered pid the
handler writes the input to the buffered stdin writer and flushes it,
answering 200 when both succeed and 500 when the write or the flush
fails. -/
theorem c8_input_injection (processes : List (Nat × ProcessInfo)) (pid : Nat)
    (input : String) :
    (mapLookup processes pid = none →
      handleExecInputPost processes pid input = (HttpStatus.notFound, []))
    ∧ (∀ info : ProcessInfo, mapLookup processes pid = some info →
        (info.writeErr = none → info.flushErr = none →
          handleExecInputPost processes pid input
            = (HttpStatus.ok, [StdinOp.write pid input, StdinOp.flush pid]))
        ∧ ((info.writeErr ≠ none ∨ info.flushErr ≠ none) →
          (handleExecInputPost processes pid input).1
            = HttpStatus.internalError)) := by
  constructor
  · intro h
    simp [handleExecInputPost, h]
  · intro info hm
    constructor
    · intro hw hf
      simp [handleExecInputPost, hm, hw, hf]
    · intro herr
      cases hw : info.writeErr with
      | some e => simp [handleExecInputPost, hm, hw]
      | none =>
          cases hf : info.flushErr with
          | some e => simp [handleExecInputPost, hm, hw, hf]
          | none =>
              rcases herr with h | h
              · exact absurd hw h
              · exact absurd hf h

/-- Witness for C8: unknown pid 7 on an empty registry gets 404 and no
write; known pid 7 with a healthy pipe gets the write, the flush and 200. -/
theorem c8_input_injection_witness :
    (mapLookup ([] : List (Nat × ProcessInfo)) 7 = none)
    ∧ (mapLookup [(7, (⟨none, none⟩ : ProcessInfo))] 7 = some ⟨none, none⟩)
    ∧ handleExecInputPost [] 7 "y" = (HttpStatus.notFound, [])
    ∧ handleExecInputPost [(7, ⟨none, none⟩)] 7 "y"
        = (HttpStatus.ok, [StdinOp.write 7 "y", StdinOp.flush 7]) :=
  ⟨rfl, by decide,
    (c8_input_injection [] 7 "y").1 rfl,
    ((c8_input_injection [(7, ⟨none, none⟩)] 7 "y").2 ⟨none, none⟩
      (by decide)).1 rfl rfl⟩

/-- C9 counterexample: the DELETE branch of the streaming endpoint reads
and writes cmdWriterCache with no lock held, so not every access to the
session registry is guarded. -/
theorem c9_session_registry_unguarded :
    regGuarded Reg.sessionReg deleteBranchTrace = false := by
  decide

/-- C9 (amended): every access to processManager.processes is made inside
a mutex Lock/Unlock or RLock/RUnlock pair scoped to the single operation,
in all five registry-touching code paths; the session registry
cmdWriterCache, in contrast, is an ordinary map accessed with no lock in
the GET and POST branches (and the DELETE branch), so concurrent requests
can race on it. -/
theorem c9_lock_discipline :
    (regGuarded Reg.processReg postBranchTrace
      && regGuarded Reg.processReg waiterTrace
      && regGuarded Reg.processReg inputHandlerTrace
      && regGuarded Reg.processReg deleteBranchTrace
      && regGuarded Reg.processReg getBranchTrace) = true
    ∧ regGuarded Reg.sessionReg postBranchTrace = false
    ∧ regGuarded Reg.sessionReg getBranchTrace = false := by
  exact ⟨by decide, by decide, by decide⟩
